import Mathlib

/-!
Verification development for the ai-interpreter core: a shallow embedding of
the JSON extractor, the capability-invocation retry wrapper, the capability
unit ("Tool") metrics, the tool registry update/remove operations, and the
task orchestrator (`callAgent`) of `src/assistant/assistant.ts` and the
`ToolRegistry` module.

Conventions of the embedding:
* JavaScript numbers that the claims touch are modelled as `ℚ` (the involved
  arithmetic is exact in floating point for all inputs used here) or as `Nat`
  for counters.
* JavaScript `undefined` is modelled as `Option.none` where it can flow.
* Thrown JavaScript errors are modelled with the `Except JsErr` monad; a value
  `JsErr` carries the error message.
* Wall-clock timestamps (`Date.now()`, ISO date strings) are outside the
  embedding; fields holding them are omitted, with a note at each structure.
-/

/-- A thrown JavaScript error, identified by its message
(`error.message` is the only part of an error object the modelled code
inspects). -/
structure JsErr where
  message : String
deriving DecidableEq, Repr

/-- JSON values, the result type of `JSON.parse`.  Numbers are exact
rationals; objects keep their fields in insertion order with unique keys
(later duplicate keys overwrite earlier ones, as `JSON.parse` does). -/
inductive Json where
  | null : Json
  | bool (b : Bool) : Json
  | num (q : ℚ) : Json
  | str (s : String) : Json
  | arr (elems : List Json) : Json
  | obj (fields : List (String × Json)) : Json
deriving Repr

/-- JSON whitespace characters. -/
def isJsonWs (c : Char) : Bool :=
  c = ' ' || c = '\t' || c = '\n' || c = '\x0d'

/-- Drop leading JSON whitespace. -/
def skipWs : List Char → List Char
  | [] => []
  | c :: cs => if isJsonWs c then skipWs cs else c :: cs

/-- Value of a hexadecimal digit, for `\u` escapes. -/
def hexVal (c : Char) : Option Nat :=
  if '0' ≤ c ∧ c ≤ '9' then some (c.toNat - 48)
  else if 'a' ≤ c ∧ c ≤ 'f' then some (c.toNat - 87)
  else if 'A' ≤ c ∧ c ≤ 'F' then some (c.toNat - 55)
  else none

/-- Body of a JSON string literal (after the opening quote): handles the
JSON escape sequences and rejects raw control characters, as `JSON.parse`
does.  Returns the decoded string and the input after the closing quote. -/
def parseStringBody (acc : String) : List Char → Option (String × List Char)
  | [] => none
  | c :: cs =>
    if c = '"' then some (acc, cs)
    else if c = '\\' then
      match cs with
      | [] => none
      | e :: cs' =>
        if e = '"' then parseStringBody (acc.push '"') cs'
        else if e = '\\' then parseStringBody (acc.push '\\') cs'
        else if e = '/' then parseStringBody (acc.push '/') cs'
        else if e = 'b' then parseStringBody (acc.push (Char.ofNat 8)) cs'
        else if e = 'f' then parseStringBody (acc.push (Char.ofNat 12)) cs'
        else if e = 'n' then parseStringBody (acc.push '\n') cs'
        else if e = 'r' then parseStringBody (acc.push (Char.ofNat 13)) cs'
        else if e = 't' then parseStringBody (acc.push '\t') cs'
        else if e = 'u' then
          match cs' with
          | h1 :: h2 :: h3 :: h4 :: cs'' =>
            match hexVal h1, hexVal h2, hexVal h3, hexVal h4 with
            | some a, some b, some c2, some d =>
              parseStringBody (acc.push (Char.ofNat (((a * 16 + b) * 16 + c2) * 16 + d))) cs''
            | _, _, _, _ => none
          | _ => none
        else none
    else if c.toNat < 32 then none
    else parseStringBody (acc.push c) cs

/-- Accumulate decimal digits into a natural number. -/
def digitsToNat (acc : Nat) : List Char → Nat
  | [] => acc
  | c :: cs => digitsToNat (acc * 10 + (c.toNat - 48)) cs

/-- Split a character list into its leading run of decimal digits and the
rest. -/
def takeDigits : List Char → (List Char × List Char)
  | [] => ([], [])
  | c :: cs =>
    if c.isDigit then
      let (ds, rest) := takeDigits cs
      (c :: ds, rest)
    else ([], c :: cs)

/-- Numeric value of a parsed JSON number: optional sign, integer part,
optional fraction (`digits`, `digit count`), optional exponent.  The fraction
and exponent factors are only introduced when the corresponding part is
present, so plain integers reduce to a natural-number cast. -/
def jsonNumVal (neg : Bool) (ip : ℕ) (frac : Option (ℕ × ℕ)) (ex : Option ℤ) : ℚ :=
  let base : ℚ :=
    match frac with
    | none => (ip : ℚ)
    | some (f, k) => (ip : ℚ) + (f : ℚ) / (10 : ℚ) ^ k
  let scaled : ℚ :=
    match ex with
    | none => base
    | some e => base * (10 : ℚ) ^ e
  match neg with
  | true => -scaled
  | false => scaled

/-- The exponent part of a JSON number after the `e`/`E` marker: optional
sign, then at least one digit. -/
def parseExpTail (cs : List Char) : Option (ℤ × List Char) :=
  match cs with
  | '+' :: rest =>
    match takeDigits rest with
    | ([], _) => none
    | (eds, rest') => some ((digitsToNat 0 eds : ℤ), rest')
  | '-' :: rest =>
    match takeDigits rest with
    | ([], _) => none
    | (eds, rest') => some (-(digitsToNat 0 eds : ℤ), rest')
  | _ =>
    match takeDigits cs with
    | ([], _) => none
    | (eds, rest') => some ((digitsToNat 0 eds : ℤ), rest')

/-- A JSON number per the JSON grammar accepted by `JSON.parse`:
optional minus sign, integer part without leading zeros, optional fraction,
optional exponent.  Returns the exact rational value. -/
def parseNumberFrom (cs : List Char) : Option (ℚ × List Char) :=
  let (neg, cs1) : Bool × List Char :=
    match cs with
    | '-' :: rest => (true, rest)
    | _ => (false, cs)
  let (intDs, cs2) := takeDigits cs1
  match intDs with
  | [] => none
  | d :: ds =>
    if d = '0' ∧ ds ≠ [] then none
    else
      let ip : ℕ := digitsToNat 0 intDs
      let fracStep : Option (Option (ℕ × ℕ) × List Char) :=
        match cs2 with
        | '.' :: rest =>
          match takeDigits rest with
          | ([], _) => none
          | (fds, rest') => some (some (digitsToNat 0 fds, fds.length), rest')
        | _ => some (none, cs2)
      match fracStep with
      | none => none
      | some (frac, cs3) =>
        let expStep : Option (Option ℤ × List Char) :=
          match cs3 with
          | 'e' :: rest =>
            match parseExpTail rest with
            | none => none
            | some (e, rest') => some (some e, rest')
          | 'E' :: rest =>
            match parseExpTail rest with
            | none => none
            | some (e, rest') => some (some e, rest')
          | _ => some (none, cs3)
        match expStep with
        | none => none
        | some (ex, cs4) => some (jsonNumVal neg ip frac ex, cs4)

/-- Set a key of a JavaScript object: overwrite in place if present,
append otherwise (JS objects keep insertion order). -/
def objSet (fields : List (String × Json)) (k : String) (v : Json) :
    List (String × Json) :=
  if fields.any (fun p => p.1 == k) then
    fields.map (fun p => if p.1 == k then (k, v) else p)
  else fields ++ [(k, v)]

mutual

/-- One JSON value, fuel-indexed recursive descent mirroring `JSON.parse`. -/
def parseValue : Nat → List Char → Option (Json × List Char)
  | 0, _ => none
  | Nat.succ fuel, cs =>
    match skipWs cs with
    | [] => none
    | c :: rest =>
      if c = 'n' then
        match rest with
        | 'u' :: 'l' :: 'l' :: rest' => some (Json.null, rest')
        | _ => none
      else if c = 't' then
        match rest with
        | 'r' :: 'u' :: 'e' :: rest' => some (Json.bool true, rest')
        | _ => none
      else if c = 'f' then
        match rest with
        | 'a' :: 'l' :: 's' :: 'e' :: rest' => some (Json.bool false, rest')
        | _ => none
      else if c = '"' then
        match parseStringBody "" rest with
        | some (s, rest') => some (Json.str s, rest')
        | none => none
      else if c = '[' then
        match skipWs rest with
        | ']' :: rest' => some (Json.arr [], rest')
        | _ =>
          match parseItems fuel rest with
          | some (vs, rest') => some (Json.arr vs, rest')
          | none => none
      else if c = '\x7b' then
        match skipWs rest with
        | '\x7d' :: rest' => some (Json.obj [], rest')
        | _ =>
          match parseFields fuel [] rest with
          | some (fs, rest') => some (Json.obj fs, rest')
          | none => none
      else
        match parseNumberFrom (c :: rest) with
        | some (q, rest') => some (Json.num q, rest')
        | none => none

/-- Comma-separated JSON array items up to the closing bracket. -/
def parseItems : Nat → List Char → Option (List Json × List Char)
  | 0, _ => none
  | Nat.succ fuel, cs =>
    match parseValue fuel cs with
    | none => none
    | some (v, cs1) =>
      match skipWs cs1 with
      | ',' :: cs2 =>
        match parseItems fuel cs2 with
        | some (vs, cs3) => some (v :: vs, cs3)
        | none => none
      | ']' :: cs2 => some ([v], cs2)
      | _ => none

/-- Comma-separated JSON object members up to the closing brace; later
duplicate keys overwrite earlier ones, as in `JSON.parse`. -/
def parseFields : Nat → List (String × Json) → List Char →
    Option (List (String × Json) × List Char)
  | 0, _, _ => none
  | Nat.succ fuel, acc, cs =>
    match skipWs cs with
    | '"' :: cs1 =>
      match parseStringBody "" cs1 with
      | none => none
      | some (k, cs2) =>
        match skipWs cs2 with
        | ':' :: cs3 =>
          match parseValue fuel cs3 with
          | none => none
          | some (v, cs4) =>
            match skipWs cs4 with
            | ',' :: cs5 => parseFields fuel (objSet acc k v) cs5
            | '\x7d' :: cs5 => some (objSet acc k v, cs5)
            | _ => none
        | _ => none
    | _ => none

end

/-- Model of `JSON.parse` returning `none` where the original throws a
`SyntaxError`: one JSON value, optionally surrounded by whitespace, with
nothing after it. -/
def jsonParse (s : String) : Option Json :=
  match parseValue (s.length + 2) s.data with
  | some (v, rest) => if skipWs rest = [] then some v else none
  | none => none

/-- Scanner state of `extractJson` (assistant.ts lines 703-764): the collected
parsed values, the bracket depth (a JS number, so it can go negative on a
stray closing bracket), the candidate substring being captured, and the
in-string / escape flags. -/
structure ExtractState where
  jsonObjects : List Json
  depth : Int
  currentJson : String
  inString : Bool
  escapeNext : Bool
deriving Repr

/-- The scanner state at the start of `extractJson`. -/
def initExtractState : ExtractState :=
  { jsonObjects := [], depth := 0, currentJson := "", inString := false,
    escapeNext := false }

/-- One iteration of the character loop of `extractJson`, faithful to the
branch order of the source: escaped character first, then backslash, then the
two quote toggles, then (outside a string) the bracket depth bookkeeping.
When the depth returns to 0 the candidate is parsed; a failed parse is
discarded silently and scanning continues with a fresh candidate. -/
def extractStep (st : ExtractState) (c : Char) : ExtractState :=
  if st.escapeNext then
    { st with currentJson := st.currentJson.push c, escapeNext := false }
  else if c = '\\' then
    { st with currentJson := st.currentJson.push c, escapeNext := true }
  else if c = '"' ∧ ¬ st.inString then
    { st with inString := true, currentJson := st.currentJson.push c }
  else if c = '"' ∧ st.inString then
    { st with inString := false, currentJson := st.currentJson.push c }
  else if ¬ st.inString then
    if c = '\x7b' ∨ c = '[' then
      let cur := if st.depth = 0 then "" else st.currentJson
      { st with depth := st.depth + 1, currentJson := cur.push c }
    else if c = '\x7d' ∨ c = ']' then
      let d := st.depth - 1
      if d = 0 then
        match jsonParse (st.currentJson.push c) with
        | some v =>
          { st with
            depth := d,
            currentJson := "",
            jsonObjects := st.jsonObjects ++ [v] }
        | none => { st with depth := d, currentJson := "" }
      else { st with depth := d, currentJson := st.currentJson.push c }
    else { st with currentJson := st.currentJson.push c }
  else { st with currentJson := st.currentJson.push c }

/-- Model of `extractJson(content)` (assistant.ts lines 703-764): run the scanner over
the input and return the parsed candidates in order of appearance. -/
def extractJson (content : String) : List Json :=
  (content.data.foldl extractStep initExtractState).jsonObjects

/-! ## Resilience wrapper: capability-invocation retry (assistant.ts 117-150)

The `pause(1000)` before each attempt and the backoff sleeps are pure delays
with no state effect; the model records the computed backoff durations in a
trace instead of sleeping. -/

/-- The fixed transient-failure substrings of `isRetryableError`
(assistant.ts 118-122). -/
def retryableErrorMessages : List String :=
  ["network timeout", "connection refused", "server unavailable"]

/-- The JavaScript `haystack.includes(needle)` test on strings. -/
def strIncludes (hay needle : String) : Bool :=
  (List.range (hay.data.length + 1)).any
    (fun i => needle.data.isPrefixOf (hay.data.drop i))

/-- ASCII lower-casing of one character (`String.prototype.toLowerCase` on
the ASCII error messages involved). -/
def lowerChar (c : Char) : Char :=
  if 'A' ≤ c ∧ c ≤ 'Z' then Char.ofNat (c.toNat + 32) else c

/-- ASCII lower-casing of a string. -/
def strToLower (s : String) : String :=
  String.mk (s.data.map lowerChar)

/-- Model of `isRetryableError(error)` (assistant.ts 117-126): the lowercased message
contains one of the transient-failure substrings. -/
def isRetryableError (e : JsErr) : Bool :=
  retryableErrorMessages.any (fun m => strIncludes (strToLower e.message) m)

/-- The `globalRetryLimit` field (assistant.ts line 38). -/
def globalRetryLimit : Nat := 100

/-- The terminal circuit-breaker error thrown once the global counter passes
the limit (assistant.ts line 134). -/
def globalRetryExceededErr : JsErr := JsErr.mk "Global retry limit exceeded."

/-- Result of one `retryOperation` run: its outcome, how many loop iterations
(attempts) ran, the final value of the process-wide `globalRetryCount`, and
the backoff delays slept between successive attempts. -/
structure RetryResult (α : Type) where
  outcome : Except JsErr α
  attempts : Nat
  finalCount : Nat
  delays : List Nat
deriving Repr

/-- The `while (true)` loop of `retryOperation` (assistant.ts 128-150),
fuel-indexed: each iteration first increments the global counter, then throws
the circuit-breaker error if the counter passed the limit (this throw lands in
the same `catch` as an operation failure and is not retryable), otherwise runs
the operation, whose outcome for the current attempt index is given by `op`.
A failure exits unless retries remain and the error is retryable; a retry
records the backoff delay `delay * 2 ^ retries` (after `retries++`).  The
loop body runs at most `maxRetries + 1` times, so fuel `maxRetries + 1` is
never exhausted; the fuel-0 branch is unreachable. -/
def retryLoop (op : Nat → Except JsErr α) (maxRetries delay : Nat) :
    Nat → Nat → Nat → Nat → List Nat → RetryResult α
  | 0, _, attempt, g, ds =>
    { outcome := Except.error (JsErr.mk "unreachable: retry fuel exhausted"),
      attempts := attempt, finalCount := g, delays := ds }
  | Nat.succ fuel, retries, attempt, g, ds =>
    let tryOutcome : Except JsErr α :=
      if g + 1 > globalRetryLimit then Except.error globalRetryExceededErr
      else op attempt
    match tryOutcome with
    | Except.ok a =>
      { outcome := Except.ok a, attempts := attempt + 1, finalCount := g + 1,
        delays := ds }
    | Except.error e =>
      if decide (maxRetries ≤ retries) || !(isRetryableError e) then
        { outcome := Except.error e, attempts := attempt + 1,
          finalCount := g + 1, delays := ds }
      else
        retryLoop op maxRetries delay fuel (retries + 1) (attempt + 1) (g + 1)
          (ds ++ [delay * 2 ^ (retries + 1)])

/-- Model of `retryOperation(operation, maxRetries, delay)` started with the instance
field `globalRetryCount = g`. -/
def retryOperation (op : Nat → Except JsErr α) (maxRetries delay g : Nat) :
    RetryResult α :=
  retryLoop op maxRetries delay (maxRetries + 1) 0 0 g []

/-- The always-failing operation with a transient network error message,
used by the retry claims. -/
def connRefusedErr : JsErr := JsErr.mk "connection refused while dialing"

/-- A validation-style error message matching none of the transient
substrings. -/
def invalidParamErr : JsErr := JsErr.mk "invalid parameter"

/-! ## Capability unit metrics and `Tool.call` (tool registry module)

Timestamps (`lastUpdated`, `testResults.lastRun`) are wall-clock strings with
no role in any claim and are omitted from the state.  Execution durations are
`Date.now()` differences, modelled as exact rationals.  The initial
`fastestExecutionTime: Infinity` is modelled as `none`. -/

/-- The `metrics.testResults` record of a capability unit. -/
structure TestResults where
  totalRuns : Nat
  passed : Nat
  failed : Nat
deriving DecidableEq, Repr

/-- The `metrics.executionStats` record of a capability unit. -/
structure ExecutionStats where
  totalExecutions : Nat
  averageExecutionTime : ℚ
  lastExecutionTime : Option ℚ
  fastestExecutionTime : Option ℚ
  slowestExecutionTime : ℚ
deriving DecidableEq, Repr

/-- The persisted metrics of a capability unit (`Tool.metrics`). -/
structure Metrics where
  versions : List String
  totalUpdates : Nat
  testResults : TestResults
  executionStats : ExecutionStats
  errorRate : ℚ
  usageCount : Nat
deriving DecidableEq, Repr

/-- Model of `initializeMetrics()` for a `Tool` constructed at version `v`. -/
def initializeMetrics (v : String) : Metrics :=
  { versions := [v], totalUpdates := 0,
    testResults := { totalRuns := 0, passed := 0, failed := 0 },
    executionStats :=
      { totalExecutions := 0, averageExecutionTime := 0,
        lastExecutionTime := none, fastestExecutionTime := none,
        slowestExecutionTime := 0 },
    errorRate := 0, usageCount := 0 }

/-- The five update kinds accepted by `updateMetrics` with their payloads. -/
inductive MetricUpdate where
  | version (v : String)
  | test (success : Bool)
  | execution (time : ℚ)
  | error (isError : Bool)
  | usage
deriving Repr

/-- The `Math.min` step against a possibly-`Infinity` (= `none`) current fastest. -/
def fastestMin (cur : Option ℚ) (t : ℚ) : Option ℚ :=
  match cur with
  | none => some t
  | some f => some (min f t)

/-- Model of `Tool.updateMetrics(updateType, data)`: the single metrics entry point,
one case per kind, with the exact aggregate formulas of the source.  The
`error` case reads `usageCount` as it stands at that moment. -/
def updateMetrics (m : Metrics) : MetricUpdate → Metrics
  | MetricUpdate.version v =>
    { m with versions := m.versions ++ [v], totalUpdates := m.totalUpdates + 1 }
  | MetricUpdate.test success =>
    { m with testResults :=
        { totalRuns := m.testResults.totalRuns + 1,
          passed := m.testResults.passed + (if success then 1 else 0),
          failed := m.testResults.failed + (if success then 0 else 1) } }
  | MetricUpdate.execution t =>
    let n : Nat := m.executionStats.totalExecutions + 1
    { m with executionStats :=
        { totalExecutions := n,
          averageExecutionTime :=
            (m.executionStats.averageExecutionTime * ((n : ℚ) - 1) + t) / (n : ℚ),
          lastExecutionTime := some t,
          fastestExecutionTime := fastestMin m.executionStats.fastestExecutionTime t,
          slowestExecutionTime := max m.executionStats.slowestExecutionTime t } }
  | MetricUpdate.error isError =>
    { m with errorRate :=
        (m.errorRate * (m.usageCount : ℚ) + (if isError then 1 else 0)) /
          ((m.usageCount : ℚ) + 1) }
  | MetricUpdate.usage => { m with usageCount := m.usageCount + 1 }

/-- Model of `Tool.call(params, parent)`: update `usage` first, then run the
executor; on success update `execution` with the measured duration, on a
throw update `error` and rethrow.  The executor's behaviour is an input: its
result and duration on success, or its thrown error. -/
def toolCall (m : Metrics) (executorOutcome : Except JsErr (Json × ℚ)) :
    Except JsErr Json × Metrics :=
  let m1 := updateMetrics m MetricUpdate.usage
  match executorOutcome with
  | Except.ok (r, t) => (Except.ok r, updateMetrics m1 (MetricUpdate.execution t))
  | Except.error e => (Except.error e, updateMetrics m1 (MetricUpdate.error true))

/-! ## Tool registry: `updateTool`, `removeTool` and the parallel metrics
table

The source stores versions as `"major.minor.patch"` strings and
`incrementVersion` splits on `.`, maps `Number`, and rejoins with the patch
incremented; the embedding keeps the parsed triple and renders it back to a
string where the metrics table records version labels.  Persistence
(`saveRegistry`, `saveMetrics`, `saveToolToRepo`) rewrites files wholesale
and has no effect on the in-memory state modelled here.  The
`MetadataManager` calls live in a module that is not part of the sources and
do not touch the registry state modelled here. -/

/-- A semantic version triple. -/
structure Version where
  major : Nat
  minor : Nat
  patch : Nat
deriving DecidableEq, Repr

/-- Model of `incrementVersion(version)` (registry module): bump the patch component
by one, keeping major and minor. -/
def incrementVersion (v : Version) : Version :=
  { v with patch := v.patch + 1 }

/-- Render a version triple back to its `"major.minor.patch"` label. -/
def versionString (v : Version) : String :=
  toString v.major ++ "." ++ toString v.minor ++ "." ++ toString v.patch

/-- A registered capability unit (`Tool`), restricted to the persisted fields
the modelled registry operations read or write.  `schema` is kept as an
opaque document; `none` models JavaScript `undefined`.  `tags` is an `Option`
because `updateTool` assigns its `tags` parameter verbatim, which may be
`undefined`. -/
structure RTool where
  name : String
  version : Version
  description : String
  source : String
  schema : Option String
  tags : Option (List String)
  active : Bool
  testHarness : String
deriving DecidableEq, Repr

/-- The registry state: the ordered unit list of `registryData.tools` plus
the parallel metrics table keyed by unit name. -/
structure Registry where
  tools : List RTool
  metrics : List (String × Metrics)
deriving DecidableEq, Repr

/-- JavaScript truthiness of an optional string (`undefined` and `""` are
falsy). -/
def jsTruthyStr : Option String → Bool
  | none => false
  | some s => decide (s ≠ "")

/-- The metrics entry `ToolRegistry.updateMetrics` creates for a name not yet
in the table. -/
def emptyRegistryMetrics : Metrics :=
  { versions := [], totalUpdates := 0,
    testResults := { totalRuns := 0, passed := 0, failed := 0 },
    executionStats :=
      { totalExecutions := 0, averageExecutionTime := 0,
        lastExecutionTime := none, fastestExecutionTime := none,
        slowestExecutionTime := 0 },
    errorRate := 0, usageCount := 0 }

/-- Model of `ToolRegistry.updateMetrics(toolName, updateType, data)`: initialize the
entry if absent, then apply the same per-kind switch as `Tool.updateMetrics`
(the two switches carry identical formulas in the source). -/
def registryUpdateMetrics (table : List (String × Metrics)) (name : String)
    (u : MetricUpdate) : List (String × Metrics) :=
  let cur :=
    match table.find? (fun p => p.1 == name) with
    | some p => p.2
    | none => emptyRegistryMetrics
  let m' := updateMetrics cur u
  if table.any (fun p => p.1 == name) then
    table.map (fun p => if p.1 == name then (name, m') else p)
  else table ++ [(name, m')]

/-- Replace the first list entry satisfying `p` (the in-place mutation of the
element located by `findIndex`). -/
def setFirst (p : RTool → Bool) (t' : RTool) : List RTool → List RTool
  | [] => []
  | t :: ts => if p t then t' :: ts else t :: setFirst p t' ts

/-- The in-place mutation `updateTool` performs on the located unit, paired
with the change condition `(schema && schema !== tool.schema) || source` that
guards the source/schema writes and the harness regeneration.  Version bump,
verbatim `tags` assignment and `active = true` happen unconditionally, before
the condition is consulted.  `harness` is the outcome of the
`generateTestHarness` model call (`none` models its internally-caught
failure, which leaves the harness unchanged). -/
def applyToolUpdate (source schema : Option String) (tags : Option (List String))
    (harness : Option String) (t : RTool) : RTool × Bool :=
  let t1 := { t with version := incrementVersion t.version, tags := tags,
                     active := true }
  let changed :=
    (jsTruthyStr schema && decide (schema ≠ t.schema)) || jsTruthyStr source
  if changed then
    let ta :=
      if jsTruthyStr source then { t1 with source := source.getD t1.source }
      else t1
    let tb := if jsTruthyStr schema then { ta with schema := schema } else ta
    match harness with
    | some h => ({ tb with testHarness := h }, true)
    | none => (tb, true)
  else (t1, false)

/-- Model of `ToolRegistry.updateTool(name, source, schema, tags)` (registry module):
`false` if the name is absent.  Otherwise the located unit is mutated through
`applyToolUpdate`, and the registry metrics table receives a `version` update
twice when the change condition holds and once otherwise. -/
def updateTool (reg : Registry) (name : String) (source schema : Option String)
    (tags : Option (List String)) (harness : Option String) : Bool × Registry :=
  match reg.tools.find? (fun t => t.name == name) with
  | none => (false, reg)
  | some t =>
    let newVersion := incrementVersion t.version
    let upd := applyToolUpdate source schema tags harness t
    let tools' := setFirst (fun x => x.name == name) upd.1 reg.tools
    let ms :=
      if upd.2 then
        registryUpdateMetrics reg.metrics name
          (MetricUpdate.version (versionString newVersion))
      else reg.metrics
    let ms :=
      registryUpdateMetrics ms name (MetricUpdate.version (versionString newVersion))
    (true, { tools := tools', metrics := ms })

/-- Model of `ToolRegistry.removeTool(name)` (registry module): filter the unit list
by name and report whether the list shrank.  The metrics table is not
touched. -/
def removeTool (reg : Registry) (name : String) : Bool × Registry :=
  let newTools := reg.tools.filter (fun t => !(t.name == name))
  (decide (newTools.length < reg.tools.length), { reg with tools := newTools })

/-! ## Task orchestrator: the subtask loop and `callAgent`
(assistant.ts 240-460)

The orchestrator's collaborators that live behind `await` boundaries — the
generative-model conversation, the similarity backend, the memory store, and
`callScript` (whose bounded repair loop either produces a result or throws,
e.g. the terminal `Script execution failed after N attempts.` error) — are
inputs of the model, each an `Except` outcome, so the theorems quantify over
every possible behaviour of theirs.  The `ConfidenceCalculator` module is not
among the sources; its two scoring functions are likewise kept abstract.
Event emissions (`emit`) carry no state and are dropped.  The run starts from
an empty shared store. -/

/-- One entry of the orchestrator's per-run result list (`rout`,
assistant.ts line 432). -/
structure Rout where
  id : String
  task : String
  script : Option Json
  result : Json
deriving Repr

/-- A value held in the orchestrator's shared `store`: a JSON-like value
(`none` models `undefined`), the aliased results array, or the decomposed
subtask array stored under the input. -/
inductive StoreVal where
  | js (v : Option Json)
  | routs (rs : List Rout)
  | taskList (ts : List Json)
deriving Repr

/-- Set a key of the shared store object (overwrite in place, else append;
JS objects keep insertion order). -/
def storeSet (store : List (String × StoreVal)) (k : String) (v : StoreVal) :
    List (String × StoreVal) :=
  if store.any (fun p => p.1 == k) then
    store.map (fun p => if p.1 == k then (k, v) else p)
  else store ++ [(k, v)]

/-- Read a key of the shared store (`none` = key absent). -/
def storeGet (store : List (String × StoreVal)) (k : String) : Option StoreVal :=
  (store.find? (fun p => p.1 == k)).map (fun p => p.2)

/-- The `String.prototype.split` operation with a one-character separator, on the character
list: consecutive separators yield empty parts and the empty input yields one
empty part, as in JavaScript. -/
def jsSplitChar (sep : Char) : List Char → List (List Char)
  | [] => [[]]
  | c :: cs =>
    let rest := jsSplitChar sep cs
    if c = sep then [] :: rest
    else
      match rest with
      | r :: rs => (c :: r) :: rs
      | [] => [[c]]

/-- The `taskName.split(':')` call on a string. -/
def jsSplit (sep : Char) (s : String) : List String :=
  (jsSplitChar sep s.data).map String.mk

/-- Property read on a JSON value (`undefined` = `none` for missing fields or
non-objects). -/
def jget (j : Json) (key : String) : Option Json :=
  match j with
  | Json.obj fields => (fields.find? (fun p => p.1 == key)).map (fun p => p.2)
  | _ => none

/-- Property write on a JSON value (a no-op on non-objects). -/
def jset (j : Json) (key : String) (v : Json) : Json :=
  match j with
  | Json.obj fields => Json.obj (objSet fields key v)
  | _ => j

/-- State threaded through the subtask loop: the shared store, the
accumulated result records, and the scripts handed to `callScript` in
execution order. -/
structure TaskLoopState where
  store : List (String × StoreVal)
  results : List Rout
  executed : List (Option Json)
deriving Repr

/-- One iteration of the subtask loop (assistant.ts 403-436): destructure the
task record (a non-string `task` field makes the later `.split(':')` throw),
derive `taskId`/`taskName` from the first colon, publish the task, chat and
script under `taskId`-derived keys, run the script, and publish its result
under `<taskId>_result` and `<taskId>_results`.  The `task.scriptResult = sr`
assignment mutates the task object already stored under `<taskId>_task`, so
that entry is re-stored with the updated object.  The `extractUsedTools` scan
feeds only the memory record's used-set and is outside the modelled state.
The subtask's `resultVar` field is never read here. -/
def runTask (execScript : Option Json → Except JsErr Json)
    (st : TaskLoopState) (task : Json) : Except JsErr TaskLoopState := do
  let taskField ←
    match jget task "task" with
    | some (Json.str s) => pure s
    | _ => throw (JsErr.mk "TypeError: task name is not a string")
  let script := jget task "script"
  let chat := jget task "chat"
  let (taskId, taskName) :=
    match jsSplit ':' taskField with
    | a :: b :: _ => (a, b)
    | _ => (taskField, taskField)
  let store := storeSet st.store "currentTaskId" (StoreVal.js (some (Json.str taskId)))
  let store := storeSet store (taskId ++ "_task") (StoreVal.js (some task))
  let store := storeSet store (taskId ++ "_chat") (StoreVal.js chat)
  let store := storeSet store (taskId ++ "_script") (StoreVal.js script)
  let sr ← execScript script
  let store := storeSet store (taskId ++ "_task")
    (StoreVal.js (some (jset task "scriptResult" sr)))
  let store := storeSet store (taskId ++ "_result") (StoreVal.js (some sr))
  let store := storeSet store (taskId ++ "_results") (StoreVal.js (some sr))
  let rout : Rout := { id := taskId, task := taskName, script := script, result := sr }
  pure { store := store, results := st.results ++ [rout],
         executed := st.executed ++ [script] }

/-- The subtask loop: run the tasks strictly in list order, stopping at the
first thrown error. -/
def runTasks (execScript : Option Json → Except JsErr Json)
    (st : TaskLoopState) : List Json → Except JsErr TaskLoopState
  | [] => pure st
  | t :: ts => do
    let st' ← runTask execScript st t
    runTasks execScript st' ts

/-- A record returned by the similarity backend, with its stored confidence
and its similarity to the current input. -/
structure MemoryHit where
  input : String
  response : String
  confidence : ℚ
  similarity : ℚ
  usedTools : List String

/-- Model of `selectBestMemory` (assistant.ts 211-215): `reduce` with the first
element as the initial accumulator, comparing `confidence * similarity`.
The second component carries the attached `adjustedConfidence`. -/
def selectBestMemory (first : MemoryHit × ℚ) (rest : List (MemoryHit × ℚ)) :
    MemoryHit × ℚ :=
  rest.foldl
    (fun best cur =>
      if cur.1.confidence * cur.1.similarity > best.1.confidence * best.1.similarity
      then cur else best)
    first

/-- The `CONFIDENCE_THRESHOLD` constant (assistant.ts line 241). -/
def confidenceThreshold : ℚ := 8 / 10

/-- The outcomes of the orchestrator's awaited collaborators, one field per
call site.  `retrievalConfidence` abstracts
`ConfidenceCalculator.calculateRetrievalConfidence` (module not among the
sources); `execScript` abstracts one full `callScript` run including its
repair loop. -/
structure AgentEnv where
  predictTools : Except JsErr (List String)
  findMemories : Except JsErr (List MemoryHit)
  retrievalConfidence : ℚ → ℚ → ℚ
  adaptMemory : MemoryHit → Except JsErr String
  updateMemoryConfidence : MemoryHit → Except JsErr Unit
  chatText : Except JsErr String
  execScript : Option Json → Except JsErr Json
  storeMemory : Except JsErr Unit

/-- The data of a successful orchestration: either the adapted response of a
reused memory, or the per-subtask result records. -/
inductive AgentData where
  | adapted (s : String)
  | results (rs : List Rout)

/-- The structured value `callAgent` returns to its caller. -/
inductive AgentResult where
  | success (data : AgentData)
  | failure (e : JsErr)

/-- The code-fence and newline stripping applied to the model reply before
extraction (assistant.ts 375-376). -/
def cleanTasksText (text : String) : String :=
  ((text.replace "```json" "").replace "```" "").replace "\n" ""

/-- The body of the `try` block of `callAgent` (assistant.ts 244-456): tool
prediction and memory retrieval; the high-confidence early return through
memory adaptation; otherwise decomposition via the model reply, code-fence
stripping, `extractJson`, the emptiness check (whose failure throws), the
store seeding, the one-level unwrap of a nested task array, the subtask loop,
and the closing memory writes.  Any thrown error anywhere here is the
`Except.error` of the result. -/
def callAgentBody (env : AgentEnv) (input : String) (resultVar : Option String) :
    Except JsErr (AgentData × List (String × StoreVal)) := do
  let _relevantTools ← env.predictTools
  let similarMemories ← env.findMemories
  let earlyBest : Option (MemoryHit × ℚ) :=
    match similarMemories.map
      (fun mem => (mem, env.retrievalConfidence mem.confidence mem.similarity)) with
    | [] => none
    | am :: ams =>
      let best := selectBestMemory am ams
      if best.2 > confidenceThreshold then some best else none
  match earlyBest with
  | some best => do
    let adapted ← env.adaptMemory best.1
    let _ ← env.updateMemoryConfidence best.1
    pure (AgentData.adapted adapted, [])
  | none => do
    let text ← env.chatText
    let tasks := extractJson (cleanTasksText text)
    if tasks.length = 0 then
      throw (JsErr.mk
        "The task must be an array of subtasks. Check the format and try again. RETURN ONLY JSON RESPONSES")
    let store0 : List (String × StoreVal) :=
      storeSet [] input (StoreVal.taskList tasks)
    let tasks :=
      match tasks with
      | Json.arr inner :: _ => inner
      | _ => tasks
    let store0 :=
      match resultVar with
      | some rv => storeSet store0 rv (StoreVal.routs [])
      | none => store0
    let finalState ←
      runTasks env.execScript { store := store0, results := [], executed := [] } tasks
    let _ ← env.storeMemory
    let _ ← similarMemories.foldlM (fun _ mem => env.updateMemoryConfidence mem) ()
    let store1 :=
      match resultVar with
      | some rv => storeSet finalState.store rv (StoreVal.routs finalState.results)
      | none => finalState.store
    pure (AgentData.results finalState.results, store1)

/-- Model of `callAgent(input, model, resultVar)` as seen by its caller: the whole
body runs inside `try`, and the `catch` returns `{success:false, error}`
instead of rethrowing.  The outer `Except` layer is the channel for
exceptions escaping to the caller; the `catch` is what keeps it at
`Except.ok`. -/
def callAgentJS (env : AgentEnv) (input : String) (resultVar : Option String) :
    Except JsErr AgentResult :=
  match callAgentBody env input resultVar with
  | Except.ok (d, _) => Except.ok (AgentResult.success d)
  | Except.error e => Except.ok (AgentResult.failure e)

/-! ## Concrete scenarios used by the claims -/

/-- C1 scenario: the first subtask, declaring `resultVar` `"v1"`. -/
def c1Task1 : Json :=
  Json.obj [("task", Json.str "t1:first"), ("script", Json.str "s1"),
            ("chat", Json.str "c1"), ("resultVar", Json.str "v1")]

/-- C1 scenario: the second subtask, whose script reads the first subtask's
result. -/
def c1Task2 : Json :=
  Json.obj [("task", Json.str "t2:second"), ("script", Json.str "s2"),
            ("chat", Json.str "c2")]

/-- C1 scenario script semantics: both scripts succeed, the second producing
its value from the first's result. -/
def c1Exec : Option Json → Except JsErr Json
  | some (Json.str "s1") => Except.ok (Json.str "r1")
  | some (Json.str "s2") => Except.ok (Json.str "r2")
  | _ => Except.error (JsErr.mk "unknown script")

/-- The empty subtask-loop state a run starts from. -/
def initLoopState : TaskLoopState := { store := [], results := [], executed := [] }

/-- C1 scenario: the loop state after the first subtask completes. -/
def c1AfterFirst : Except JsErr TaskLoopState :=
  runTasks c1Exec initLoopState [c1Task1]

/-- C1 scenario: the loop state after both subtasks complete. -/
def c1AfterBoth : Except JsErr TaskLoopState :=
  runTasks c1Exec initLoopState [c1Task1, c1Task2]

/-- C2/C8 scenario: a registered unit at version `1.0.0`. -/
def c2Tool : RTool :=
  { name := "t", version := { major := 1, minor := 0, patch := 0 },
    description := "d", source := "srcA", schema := some "schA",
    tags := some ["x"], active := true, testHarness := "h0" }

/-- C2 scenario registry. -/
def c2Reg : Registry := { tools := [c2Tool], metrics := [] }

/-- C8 scenario registry: the unit together with its metrics-table entry. -/
def c8Reg : Registry :=
  { tools := [c2Tool], metrics := [("t", initializeMetrics "1.0.0")] }

/-! # Theorems -/

/-! ## Supporting lemmas -/

/-- Loop invariant of `retryLoop`: the final global counter equals the
starting counter plus the number of loop iterations performed after entry. -/
theorem retryLoop_finalCount {α : Type} (op : Nat → Except JsErr α)
    (maxRetries delay : Nat) :
    ∀ (fuel retries attempt g : Nat) (ds : List Nat),
      (retryLoop op maxRetries delay fuel retries attempt g ds).finalCount + attempt =
        g + (retryLoop op maxRetries delay fuel retries attempt g ds).attempts := by
  intro fuel
  induction fuel with
  | zero =>
    intro retries attempt g ds
    simp [retryLoop]
  | succ fuel ih =>
    intro retries attempt g ds
    simp only [retryLoop]
    split
    · simp
      omega
    · split
      · simp
        omega
      · have h2 := ih (retries + 1) (attempt + 1) (g + 1)
          (ds ++ [delay * 2 ^ (retries + 1)])
        omega

/-- The circuit-breaker error message matches none of the transient
substrings. -/
theorem globalRetryErr_not_retryable :
    isRetryableError globalRetryExceededErr = false := rfl

/-- The mutation `applyToolUpdate` never touches the unit's name. -/
theorem applyToolUpdate_name (s sc : Option String) (tg : Option (List String))
    (h : Option String) (t : RTool) :
    (applyToolUpdate s sc tg h t).1.name = t.name := by
  unfold applyToolUpdate
  cases hs : jsTruthyStr s <;> cases hsc : jsTruthyStr sc <;>
    cases hne : decide (sc ≠ t.schema) <;> cases h <;> simp [hs, hsc, hne]

/-- The mutation `applyToolUpdate` always sets the version to `incrementVersion` of the
old version. -/
theorem applyToolUpdate_version (s sc : Option String) (tg : Option (List String))
    (h : Option String) (t : RTool) :
    (applyToolUpdate s sc tg h t).1.version = incrementVersion t.version := by
  unfold applyToolUpdate
  cases hs : jsTruthyStr s <;> cases hsc : jsTruthyStr sc <;>
    cases hne : decide (sc ≠ t.schema) <;> cases h <;> simp [hs, hsc, hne]

/-- Searching with `find?` over a list whose first match was replaced by an element that
still matches returns the replacement. -/
theorem find?_setFirst (p : RTool → Bool) (t' : RTool) (hp : p t' = true) :
    ∀ l : List RTool, (l.find? p).isSome = true →
      (setFirst p t' l).find? p = some t' := by
  intro l
  induction l with
  | nil => simp [List.find?]
  | cons t ts ih =>
    by_cases h : p t = true
    · intro _
      simp [setFirst, h, List.find?_cons_of_pos _ hp]
    · intro hsome
      rw [List.find?_cons_of_neg _ h] at hsome
      simp [setFirst, h, List.find?_cons_of_neg _ h]
      exact ih hsome

/-- Removing by name shrinks the unit list exactly when a unit with that
name is present. -/
theorem filter_out_name_length_lt (name : String) :
    ∀ l : List RTool,
      (l.filter (fun t => !(t.name == name))).length < l.length ↔
        l.any (fun t => t.name == name) = true := by
  intro l
  induction l with
  | nil => simp
  | cons t ts ih =>
    by_cases h : (t.name == name) = true
    · have hle := List.length_filter_le (fun t : RTool => !(t.name == name)) ts
      simp [h]
      omega
    · simp [h, ih]

/-! ## Claim theorems -/

/-- C4 (confirmed): on the input
`prefix {"a":1} middle [1,2,{"b":"}"}] suffix` the JSON extractor returns
exactly the two parsed values `{a:1}` and `[1,2,{b:"}"}]` in left-to-right
order; the closing brace inside the JSON string does not change the bracket
depth. -/
theorem c4_extractJson_nested_string_braces :
    extractJson "prefix \x7b\"a\":1\x7d middle [1,2,\x7b\"b\":\"\x7d\"\x7d] suffix" =
      [Json.obj [("a", Json.num 1)],
       Json.arr [Json.num 1, Json.num 2, Json.obj [("b", Json.str "\x7d")]]] :=
  rfl

/-- C9 (confirmed): `extractJson` is a total function returning a list, and a
bracket-balanced candidate whose parse fails leaves the scanner exactly in
its initial state, so it is skipped and the extraction of everything after it
is unaffected: prefixing any such candidate `c` to any input `s` yields the
same result as scanning `s` alone. -/
theorem c9_failed_candidate_skipped (c : String)
    (h : List.foldl extractStep initExtractState c.data = initExtractState) :
    ∀ s : String, extractJson (c ++ s) = extractJson s := by
  intro s
  unfold extractJson
  rw [String.data_append, List.foldl_append, h]

/-- C9 witness: the malformed candidate `{a:}` (unquoted key) returns the
scanner to its initial state, so it is dropped and a later valid candidate is
still extracted. -/
theorem c9_failed_candidate_skipped_witness :
    List.foldl extractStep initExtractState ("\x7ba:\x7d" : String).data =
      initExtractState ∧
    extractJson ("\x7ba:\x7d" ++ " [1]") = extractJson " [1]" ∧
    extractJson " [1]" = [Json.arr [Json.num 1]] :=
  ⟨rfl, c9_failed_candidate_skipped "\x7ba:\x7d" rfl " [1]", rfl⟩

/-- C5 (confirmed): every loop iteration of the retry wrapper (each attempt,
including the first) increments the process-wide counter — the final counter
is the starting counter plus the number of attempts — and once the counter
exceeds the global limit 100, any operation run through the wrapper fails
immediately (one attempt, no backoff) with the terminal
`Global retry limit exceeded.` error, whatever the operation's own errors
would be. -/
theorem c5_global_retry_counter {α : Type} (op : Nat → Except JsErr α)
    (maxRetries delay g : Nat) :
    (retryOperation op maxRetries delay g).finalCount =
      g + (retryOperation op maxRetries delay g).attempts ∧
    (globalRetryLimit < g →
      retryOperation op maxRetries delay g =
        { outcome := Except.error globalRetryExceededErr, attempts := 1,
          finalCount := g + 1, delays := [] }) := by
  constructor
  · have h := retryLoop_finalCount op maxRetries delay (maxRetries + 1) 0 0 g []
    simpa [retryOperation] using h
  · intro hg
    unfold retryOperation
    simp only [retryLoop]
    rw [if_pos (by omega : g + 1 > globalRetryLimit)]
    simp [globalRetryErr_not_retryable]

/-- C5 witness: with the counter already past the limit, an operation whose
own error is retryable still fails immediately with the circuit-breaker
error. -/
theorem c5_global_retry_counter_witness :
    globalRetryLimit < 101 ∧
    isRetryableError connRefusedErr = true ∧
    retryOperation (fun _ => (Except.error connRefusedErr : Except JsErr Json))
        3 1000 101 =
      { outcome := Except.error globalRetryExceededErr, attempts := 1,
        finalCount := 102, delays := [] } :=
  ⟨by decide, rfl,
   (c5_global_retry_counter (fun _ => (Except.error connRefusedErr : Except JsErr Json))
      3 1000 101).2 (by decide)⟩

/-- C6 (confirmed): with the configured limit (3 retries, base delay 1000) an
error whose message is `connection refused while dialing` is classified
retryable and retried up to the limit — 4 attempts with strictly increasing
backoff delays 2000, 4000, 8000 — while any error not matching the transient
substrings, such as `invalid parameter`, propagates after the first attempt
with no backoff. -/
theorem c6_retry_classification :
    isRetryableError connRefusedErr = true ∧
    isRetryableError invalidParamErr = false ∧
    retryOperation (fun _ => (Except.error connRefusedErr : Except JsErr Json))
        3 1000 0 =
      { outcome := Except.error connRefusedErr, attempts := 4, finalCount := 4,
        delays := [2000, 4000, 8000] } ∧
    (2000 < 4000 ∧ 4000 < 8000) ∧
    (∀ e : JsErr, isRetryableError e = false →
      retryOperation (fun _ => (Except.error e : Except JsErr Json)) 3 1000 0 =
        { outcome := Except.error e, attempts := 1, finalCount := 1,
          delays := [] }) := by
  refine ⟨rfl, rfl, rfl, by decide, ?_⟩
  intro e he
  simp [retryOperation, retryLoop, globalRetryLimit, he]

/-- C6 witness: the never-retried branch applied at the concrete
`invalid parameter` error. -/
theorem c6_retry_classification_witness :
    isRetryableError invalidParamErr = false ∧
    retryOperation (fun _ => (Except.error invalidParamErr : Except JsErr Json))
        3 1000 0 =
      { outcome := Except.error invalidParamErr, attempts := 1, finalCount := 1,
        delays := [] } :=
  ⟨rfl, c6_retry_classification.2.2.2.2 invalidParamErr rfl⟩

/-- C7 counterexample: starting from fresh metrics (usageCount 0, errorRate
0), a failing invocation sets the error rate to 1/2, while the claimed
formula — evaluated with the pre-increment usageCount 0 — gives 1. -/
theorem c7_errorRate_counterexample :
    (toolCall (initializeMetrics "1.0.0") (Except.error connRefusedErr)).2.errorRate
      = 1 / 2 ∧
    ((initializeMetrics "1.0.0").errorRate *
          ((initializeMetrics "1.0.0").usageCount : ℚ) + 1) /
        (((initializeMetrics "1.0.0").usageCount : ℚ) + 1) = 1 ∧
    (1 : ℚ) / 2 ≠ 1 := by
  refine ⟨?_, ?_, by norm_num⟩
  · norm_num [toolCall, updateMetrics, initializeMetrics]
  · norm_num [initializeMetrics]

/-- C7 amended: `Tool.call` updates `usage` before running the executor, so
on a failing invocation the error formula reads the already-incremented
usage count: with `n` the pre-call usageCount,
`rate' = (rate * (n+1) + 1) / ((n+1) + 1)`. -/
theorem c7_errorRate_formula (m : Metrics) (e : JsErr) :
    (toolCall m (Except.error e)).2.errorRate =
      (m.errorRate * ((m.usageCount : ℚ) + 1) + 1) /
        (((m.usageCount : ℚ) + 1) + 1) := by
  simp [toolCall, updateMetrics]

/-- C10 (confirmed): every invocation through `Tool.call` increments
usageCount by exactly one — on failing invocations too, since the usage
update precedes the executor — while totalExecutions and the execution-time
statistics change only on an invocation that completes without throwing. -/
theorem c10_usage_counts_attempts (m : Metrics) (e : JsErr) (r : Json) (t : ℚ) :
    (toolCall m (Except.ok (r, t))).2.usageCount = m.usageCount + 1 ∧
    (toolCall m (Except.error e)).2.usageCount = m.usageCount + 1 ∧
    (toolCall m (Except.error e)).2.executionStats = m.executionStats ∧
    (toolCall m (Except.ok (r, t))).2.executionStats.totalExecutions =
      m.executionStats.totalExecutions + 1 :=
  ⟨rfl, rfl, rfl, rfl⟩

/-- C8 counterexample: removing a present unit returns `true` and deletes the
unit, but its entry in the parallel metrics table survives, contradicting the
claim that removal drops it. -/
theorem c8_remove_counterexample :
    (removeTool c8Reg "t").1 = true ∧
    (removeTool c8Reg "t").2.tools = [] ∧
    (removeTool c8Reg "t").2.metrics = [("t", initializeMetrics "1.0.0")] :=
  ⟨rfl, rfl, rfl⟩

/-- C8 amended: `remove(name)` returns whether a removal occurred (`true`
exactly when a unit with that name was present), a second remove returns
`false` and leaves the registry unchanged, and the metrics table is never
touched by removal. -/
theorem c8_remove_semantics (reg : Registry) (name : String) :
    (removeTool reg name).1 = reg.tools.any (fun t => t.name == name) ∧
    (removeTool reg name).2.metrics = reg.metrics ∧
    (removeTool (removeTool reg name).2 name).1 = false ∧
    (removeTool (removeTool reg name).2 name).2 = (removeTool reg name).2 := by
  refine ⟨?_, rfl, ?_, ?_⟩
  · unfold removeTool
    dsimp only
    by_cases h : (List.filter (fun t => !(t.name == name)) reg.tools).length <
        reg.tools.length
    · rw [decide_eq_true h]
      exact ((filter_out_name_length_lt name reg.tools).mp h).symm
    · rw [decide_eq_false h]
      cases he : reg.tools.any (fun t => t.name == name) with
      | false => rfl
      | true => exact absurd ((filter_out_name_length_lt name reg.tools).mpr he) h
  · unfold removeTool
    simp [List.filter_filter]
  · unfold removeTool
    simp [List.filter_filter]

/-- C2 counterexample: an update that changes neither source (the same source
text is passed) nor schema (none supplied) still bumps the patch component
from `1.0.0` to `1.0.1`, contradicting the claim that such an update leaves
the version unchanged. -/
theorem c2_unchanged_update_counterexample :
    (((updateTool c2Reg "t" (some c2Tool.source) none none none).2.tools.find?
        (fun x => x.name == "t")).map RTool.source) = some c2Tool.source ∧
    (((updateTool c2Reg "t" (some c2Tool.source) none none none).2.tools.find?
        (fun x => x.name == "t")).map RTool.schema) = some c2Tool.schema ∧
    (((updateTool c2Reg "t" (some c2Tool.source) none none none).2.tools.find?
        (fun x => x.name == "t")).map RTool.version) =
      some { major := 1, minor := 0, patch := 1 } ∧
    c2Tool.version = { major := 1, minor := 0, patch := 0 } ∧
    ¬ (((updateTool c2Reg "t" (some c2Tool.source) none none none).2.tools.find?
        (fun x => x.name == "t")).map RTool.version) = some c2Tool.version :=
  ⟨rfl, rfl, rfl, rfl, by decide⟩

/-- C2 amended: every `update` call on a present unit returns `true` and
bumps the patch component by exactly 1 — whether or not source or schema
changed — and an update of an absent name fails leaving the registry
unchanged. -/
theorem c2_updateTool_version (reg : Registry) (name : String)
    (source schema : Option String) (tags : Option (List String))
    (harness : Option String) :
    (∀ t, reg.tools.find? (fun x => x.name == name) = some t →
      (updateTool reg name source schema tags harness).1 = true ∧
      (((updateTool reg name source schema tags harness).2.tools.find?
          (fun x => x.name == name)).map RTool.version) =
        some { major := t.version.major, minor := t.version.minor,
               patch := t.version.patch + 1 }) ∧
    (reg.tools.find? (fun x => x.name == name) = none →
      updateTool reg name source schema tags harness = (false, reg)) := by
  constructor
  · intro t ht
    unfold updateTool
    rw [ht]
    dsimp only
    refine ⟨rfl, ?_⟩
    have hp : (fun x : RTool => x.name == name)
        (applyToolUpdate source schema tags harness t).1 = true := by
      have h1 := applyToolUpdate_name source schema tags harness t
      have h2 := List.find?_some ht
      simp only [h1]
      exact h2
    have hsome : (reg.tools.find? (fun x => x.name == name)).isSome = true := by
      rw [ht]; rfl
    rw [find?_setFirst _ _ hp reg.tools hsome]
    simp [applyToolUpdate_version, incrementVersion]
  · intro hnone
    unfold updateTool
    rw [hnone]

/-- C2 witness: a source-changing update of the scenario unit succeeds and
takes the version from `1.0.0` to `1.0.1`. -/
theorem c2_updateTool_version_witness :
    c2Reg.tools.find? (fun x => x.name == "t") = some c2Tool ∧
    (updateTool c2Reg "t" (some "srcB") none none (some "h1")).1 = true ∧
    (((updateTool c2Reg "t" (some "srcB") none none (some "h1")).2.tools.find?
        (fun x => x.name == "t")).map RTool.version) =
      some { major := 1, minor := 0, patch := 1 } :=
  ⟨rfl,
   ((c2_updateTool_version c2Reg "t" (some "srcB") none none (some "h1")).1
      c2Tool rfl).1,
   ((c2_updateTool_version c2Reg "t" (some "srcB") none none (some "h1")).1
      c2Tool rfl).2⟩

/-- C1 counterexample: after the first subtask (declared `resultVar` `"v1"`)
completes, its result is in the store under `t1_results`, but there is no
store entry under the `resultVar` key `v1` (nor under the bare taskId `t1`) —
the orchestrator loop never reads the subtask's `resultVar` field. -/
theorem c1_store_counterexample :
    c1AfterFirst.map (fun st => storeGet st.store "v1") = Except.ok none ∧
    c1AfterFirst.map (fun st => storeGet st.store "t1") = Except.ok none ∧
    c1AfterFirst.map (fun st => (storeGet st.store "t1_results").isSome) =
      Except.ok true :=
  ⟨rfl, rfl, rfl⟩

/-- C1 amended: the two subtasks execute strictly in list order, the final
result sequence holds both subtask results in their original order, and after
the first subtask completes the shared store exposes its result under its
taskId-derived keys `t1_result` and `t1_results`, while no entry is created
under its declared `resultVar`. -/
theorem c1_task_loop_semantics :
    c1AfterBoth.map (fun st => st.executed) =
      Except.ok [some (Json.str "s1"), some (Json.str "s2")] ∧
    c1AfterBoth.map (fun st => st.results.map (fun r => (r.id, r.task))) =
      Except.ok [("t1", "first"), ("t2", "second")] ∧
    c1AfterBoth.map (fun st => st.results.map Rout.result) =
      Except.ok [Json.str "r1", Json.str "r2"] ∧
    c1AfterFirst.map (fun st => storeGet st.store "t1_result") =
      Except.ok (some (StoreVal.js (some (Json.str "r1")))) ∧
    c1AfterFirst.map (fun st => storeGet st.store "t1_results") =
      Except.ok (some (StoreVal.js (some (Json.str "r1")))) ∧
    c1AfterFirst.map (fun st => storeGet st.store "v1") = Except.ok none :=
  ⟨rfl, rfl, rfl, rfl, rfl, rfl⟩

/-- C3 (confirmed): whatever the outcomes of decomposition, JSON extraction,
script execution (including the repair loop's terminal failure) and memory
updates, `callAgent` hands its caller a structured result — the exception
channel to the caller always carries `Except.ok`, i.e. the orchestrator never
rethrows. -/
theorem c3_callAgent_structured_result (env : AgentEnv) (input : String)
    (resultVar : Option String) :
    ∃ r : AgentResult, callAgentJS env input resultVar = Except.ok r := by
  unfold callAgentJS
  cases callAgentBody env input resultVar with
  | ok d => exact ⟨AgentResult.success d.1, rfl⟩
  | error e => exact ⟨AgentResult.failure e, rfl⟩
